import Mathlib

/-
Verification of the learning-store logic of the Urdu flashcard trainer
(src/main.py, class FlashcardApp). The store state consists of the working
set of not-yet-learned vocabulary records (field to_learn), the current
card shown on screen (field current_card, an empty dict in Python modelled
as none), the single-slot undo buffer (field last_removed), the session
counter (field cards_learned_today) and the total count recorded at load
time (field original_count). Persistence is a progress CSV file plus the
read-only original dataset CSV; both are modelled as FileState values.
-/

namespace Flashcard

/-- A vocabulary record: one CSV row with the two named columns of the
dataset. Equality is full field match, exactly as Python dict equality
compares the records produced by DataFrame.to_dict. -/
structure VocabItem where
  urdu : String
  english : String
deriving DecidableEq

/-- The built-in demo data returned by _load_data (src/main.py lines 92-96)
when neither CSV file exists. -/
def demo_data : List VocabItem :=
  [⟨"سلام", "Hello"⟩, ⟨"شکریہ", "Thank you"⟩, ⟨"پانی", "Water"⟩]

/-- State of one file on disk: absent, present but unreadable as CSV
(pd.read_csv raises, caught by the try block of _load_data), or present
and parsed into a list of row records. -/
inductive FileState where
  | missing
  | corrupt
  | ok (rows : List VocabItem)
deriving DecidableEq

/-- The two files the store touches: the progress file
(data/words_to_learn.csv) and the original dataset (data/urdu_words.csv). -/
structure Files where
  progress : FileState
  original : FileState
deriving DecidableEq

/-- The store fields of FlashcardApp (src/main.py lines 52-61, 288). -/
structure AppState where
  to_learn : List VocabItem
  current_card : Option VocabItem
  last_removed : Option VocabItem
  cards_learned_today : Nat
  original_count : Nat
deriving DecidableEq

/-- Reading the original dataset, the tail of _load_data
(src/main.py lines 83-96): its rows when it parses, the demo data when it
is absent, and an empty list when reading raises (the except branch at
lines 98-100). -/
def load_original : FileState → List VocabItem
  | FileState.corrupt => []
  | FileState.ok rows => rows
  | FileState.missing => demo_data

/-- _load_data (src/main.py lines 73-100): the progress file is used when
it exists and parses to more than zero rows; otherwise the original
dataset is tried; any exception while reading yields an empty list. -/
def load_data (fs : Files) : List VocabItem :=
  match fs.progress with
  | FileState.corrupt => []
  | FileState.ok rows => if 0 < rows.length then rows else load_original fs.original
  | FileState.missing => load_original fs.original

/-- The progress-file contents written by _save_progress
(src/main.py lines 433-440). A non-empty working set round-trips through
the CSV as its list of records. Serialising an empty working set builds an
empty DataFrame with no columns, whose CSV output has no header row;
pd.read_csv raises EmptyDataError on such a file, so the written file is
modelled as corrupt. -/
def save_progress (rows : List VocabItem) : FileState :=
  if rows = [] then FileState.corrupt else FileState.ok rows

/-- The card chosen by random.choice inside next_card
(src/main.py line 331), with the random draw made explicit as an index i
reduced modulo the list length; none when the working set is empty. -/
def pick_next (s : AppState) (i : Nat) : Option VocabItem :=
  if h : s.to_learn = [] then none
  else some (s.to_learn.get ⟨i % s.to_learn.length, Nat.mod_lt i (List.length_pos.mpr h)⟩)

/-- next_card (src/main.py lines 321-341). When the working set is empty
the method only shows the completion message and returns, changing no
store field; otherwise it sets current_card to a randomly chosen member.
Timer cancellation and the flip flag are presentation state, outside the
store. -/
def next_card (s : AppState) (i : Nat) : AppState :=
  match pick_next s i with
  | none => s
  | some c => { s with current_card := some c }

/-- is_known (src/main.py lines 398-420): returns immediately when the
current card is empty or the working set is empty; otherwise copies the
current card into the undo slot, removes the first occurrence equal to it
from the working set when one exists (list.remove guarded by the
membership test, which List.erase models exactly), increments the session
counter, rewrites the progress file with the new working set, and draws
the next card. -/
def is_known (s : AppState) (fs : Files) (i : Nat) : AppState × Files :=
  match s.current_card with
  | none => (s, fs)
  | some c =>
    if s.to_learn = [] then (s, fs)
    else
      let t := s.to_learn.erase c
      let s1 : AppState :=
        { s with to_learn := t, last_removed := some c,
                 cards_learned_today := s.cards_learned_today + 1 }
      (next_card s1 i, { fs with progress := save_progress t })

/-- undo_last (src/main.py lines 422-431): when the undo slot is occupied,
appends the stored item back to the working set, lowers the session
counter with a floor at zero (Nat subtraction models max(0, n - 1)),
rewrites the progress file and clears the slot; otherwise does nothing. -/
def undo_last (s : AppState) (fs : Files) : AppState × Files :=
  match s.last_removed with
  | none => (s, fs)
  | some c =>
    let t := s.to_learn ++ [c]
    ({ s with to_learn := t, cards_learned_today := s.cards_learned_today - 1,
              last_removed := none },
     { fs with progress := save_progress t })

/-- reset_progress, confirmed path (src/main.py lines 442-464): deletes
the progress file when it exists, reloads via _load_data (which now skips
the progress step because the file is gone), records the new total, zeroes
the session counter, and draws a next card when the reloaded set is
non-empty. The undo slot field last_removed is not touched by the source,
and no save of the progress file happens here. -/
def reset_progress (s : AppState) (fs : Files) (i : Nat) : AppState × Files :=
  let fs1 : Files := { fs with progress := FileState.missing }
  let t := load_data fs1
  let s1 : AppState :=
    { s with to_learn := t, original_count := t.length, cards_learned_today := 0 }
  (if t = [] then s1 else next_card s1 i, fs1)

/-- The numbers computed by _get_progress_text and _update_progress_bar
(src/main.py lines 299-311): learned = total - remaining as a (possibly
negative) integer, the total, and the percentage learned / total * 100
when the total is positive, else 0. Both methods only read the state; this
is a pure function of the store. -/
def progress_summary (s : AppState) : Int × Nat × Rat :=
  let total := s.original_count
  let remaining := s.to_learn.length
  let learned : Int := (total : Int) - (remaining : Int)
  let percentage : Rat := if 0 < total then (learned : Rat) / (total : Rat) * 100 else 0
  (learned, total, percentage)

/-- learnedTotal as displayed by the progress summary. -/
def learned_total (s : AppState) : Int :=
  (s.original_count : Int) - (s.to_learn.length : Int)

/-- The store operations that are neither undo nor reset: marking the
current card known, drawing a card (also the skip action), and a bare
rewrite of the progress file. The Nat argument is the random draw. -/
inductive StoreOp where
  | markKnown (i : Nat)
  | pickNext (i : Nat)
  | persist

/-- One step of the store under a StoreOp. -/
def stepOp : AppState × Files → StoreOp → AppState × Files
  | (s, fs), StoreOp.markKnown i => is_known s fs i
  | (s, fs), StoreOp.pickNext i => (next_card s i, fs)
  | (s, fs), StoreOp.persist => (s, { fs with progress := save_progress s.to_learn })

/-- Running a sequence of StoreOps from a given state. -/
def runOps (st : AppState × Files) (ops : List StoreOp) : AppState × Files :=
  ops.foldl stepOp st

/-- Sample record used for concrete instances. -/
def vA : VocabItem := ⟨"a", "b"⟩

/-- Second sample record used for concrete instances. -/
def vB : VocabItem := ⟨"c", "d"⟩

-- Helper lemmas -------------------------------------------------------------

/-- next_card changes no store field other than current_card. -/
theorem next_card_fields (s : AppState) (i : Nat) :
    (next_card s i).to_learn = s.to_learn ∧
    (next_card s i).last_removed = s.last_removed ∧
    (next_card s i).cards_learned_today = s.cards_learned_today ∧
    (next_card s i).original_count = s.original_count := by
  cases h : pick_next s i <;> simp [next_card, h]

/-- Unfolding of is_known when a current card is set and the working set
is non-empty. -/
theorem is_known_some (t : List VocabItem) (c : VocabItem) (lr : Option VocabItem)
    (cl oc : Nat) (fs : Files) (i : Nat) (h : t ≠ []) :
    is_known (AppState.mk t (some c) lr cl oc) fs i =
      (next_card (AppState.mk (t.erase c) (some c) (some c) (cl + 1) oc) i,
       Files.mk (save_progress (t.erase c)) fs.original) := by
  simp [is_known, h]

/-- Field-level description of is_known when a current card is set and the
working set is non-empty. -/
theorem is_known_unfold (s : AppState) (fs : Files) (i : Nat) (x : VocabItem)
    (hc : s.current_card = some x) (hne : s.to_learn ≠ []) :
    (is_known s fs i).1.to_learn = s.to_learn.erase x ∧
    (is_known s fs i).1.last_removed = some x ∧
    (is_known s fs i).1.cards_learned_today = s.cards_learned_today + 1 ∧
    (is_known s fs i).1.original_count = s.original_count ∧
    (is_known s fs i).2 = Files.mk (save_progress (s.to_learn.erase x)) fs.original := by
  obtain ⟨t, cc, lr, cl, oc⟩ := s
  obtain rfl : cc = some x := hc
  rw [is_known_some t x lr cl oc fs i hne]
  have hf := next_card_fields (AppState.mk (t.erase x) (some x) (some x) (cl + 1) oc) i
  exact ⟨hf.1, hf.2.1, hf.2.2.1, hf.2.2.2, rfl⟩

/-- Unfolding of undo_last when the undo slot is occupied. -/
theorem undo_last_some (s : AppState) (fs : Files) (x : VocabItem)
    (h : s.last_removed = some x) :
    undo_last s fs =
      (AppState.mk (s.to_learn ++ [x]) s.current_card none
        (s.cards_learned_today - 1) s.original_count,
       Files.mk (save_progress (s.to_learn ++ [x])) fs.original) := by
  obtain ⟨t, cc, lr, cl, oc⟩ := s
  obtain rfl : lr = some x := h
  rfl

-- Claim theorems ------------------------------------------------------------

/-- Claim C1, counterexample: with the working set holding two identical
records, marking the current card known removes only the first matching
occurrence, so the item is still a member of the new working set. This
falsifies the part of the claim stating that x is not in the resulting
working set. -/
theorem markKnown_dup_counterexample :
    vA ∈ (AppState.mk [vA, vA] (some vA) none 0 2).to_learn ∧
    ¬ (vA ∉ (is_known (AppState.mk [vA, vA] (some vA) none 0 2)
        (Files.mk FileState.missing FileState.missing) 0).1.to_learn) := by
  decide

/-- Claim C1, amended: for every working set and current card x that is a
member of it, markKnown removes exactly one occurrence of x (the count of
x drops by one, so x is absent exactly when it occurred once), the size
drops by one, and learnedThisSession increases by exactly one. -/
theorem markKnown_removes_one (s : AppState) (fs : Files) (i : Nat) (x : VocabItem)
    (hc : s.current_card = some x) (hm : x ∈ s.to_learn) :
    (is_known s fs i).1.to_learn.count x = s.to_learn.count x - 1 ∧
    (is_known s fs i).1.to_learn.length = s.to_learn.length - 1 ∧
    (is_known s fs i).1.cards_learned_today = s.cards_learned_today + 1 ∧
    (s.to_learn.count x = 1 → x ∉ (is_known s fs i).1.to_learn) := by
  have hne : s.to_learn ≠ [] := List.ne_nil_of_mem hm
  have hu := is_known_unfold s fs i x hc hne
  refine ⟨?_, ?_, hu.2.2.1, ?_⟩
  · rw [hu.1]
    exact List.count_erase_self x s.to_learn
  · rw [hu.1]
    exact List.length_erase_of_mem hm
  · intro h1
    rw [hu.1]
    exact List.count_eq_zero.mp (by rw [List.count_erase_self, h1])

/-- Claim C1, witness at a concrete input. -/
theorem markKnown_removes_one_witness :
    (is_known (AppState.mk [vA, vB] (some vA) none 4 2)
        (Files.mk FileState.missing FileState.missing) 0).1.to_learn.count vA
      = List.count vA [vA, vB] - 1 ∧
    (is_known (AppState.mk [vA, vB] (some vA) none 4 2)
        (Files.mk FileState.missing FileState.missing) 0).1.to_learn.length
      = List.length [vA, vB] - 1 ∧
    (is_known (AppState.mk [vA, vB] (some vA) none 4 2)
        (Files.mk FileState.missing FileState.missing) 0).1.cards_learned_today = 4 + 1 ∧
    (List.count vA [vA, vB] = 1 →
      vA ∉ (is_known (AppState.mk [vA, vB] (some vA) none 4 2)
        (Files.mk FileState.missing FileState.missing) 0).1.to_learn) :=
  markKnown_removes_one (AppState.mk [vA, vB] (some vA) none 4 2)
    (Files.mk FileState.missing FileState.missing) 0 vA rfl (by decide)

/-- Claim C2: undoing immediately after marking a member card known
restores the working set up to permutation (hence as a set of records)
and restores learnedThisSession to its prior value. -/
theorem undo_markKnown (s : AppState) (fs : Files) (i : Nat) (x : VocabItem)
    (hc : s.current_card = some x) (hm : x ∈ s.to_learn) :
    List.Perm (undo_last (is_known s fs i).1 (is_known s fs i).2).1.to_learn s.to_learn ∧
    (undo_last (is_known s fs i).1 (is_known s fs i).2).1.cards_learned_today
      = s.cards_learned_today := by
  have hne : s.to_learn ≠ [] := List.ne_nil_of_mem hm
  have hu := is_known_unfold s fs i x hc hne
  rw [undo_last_some (is_known s fs i).1 (is_known s fs i).2 x hu.2.1]
  constructor
  · rw [hu.1]
    exact List.Perm.trans (List.perm_append_singleton x (s.to_learn.erase x))
      (List.perm_cons_erase hm).symm
  · rw [hu.2.2.1]
    simp

/-- Claim C2, witness at a concrete input. -/
theorem undo_markKnown_witness :
    List.Perm
      (undo_last
        (is_known (AppState.mk [vA, vB] (some vB) none 7 2)
          (Files.mk FileState.missing FileState.missing) 0).1
        (is_known (AppState.mk [vA, vB] (some vB) none 7 2)
          (Files.mk FileState.missing FileState.missing) 0).2).1.to_learn [vA, vB] ∧
    (undo_last
        (is_known (AppState.mk [vA, vB] (some vB) none 7 2)
          (Files.mk FileState.missing FileState.missing) 0).1
        (is_known (AppState.mk [vA, vB] (some vB) none 7 2)
          (Files.mk FileState.missing FileState.missing) 0).2).1.cards_learned_today = 7 :=
  undo_markKnown (AppState.mk [vA, vB] (some vB) none 7 2)
    (Files.mk FileState.missing FileState.missing) 0 vB rfl (by decide)

/-- Claim C3: the load resolution order over every file-system state —
the progress file when present and parseable with at least one row, else
the original dataset when present, else the built-in fallback of exactly
three items; a read error on the file being read yields an empty working
set instead of an abort. -/
theorem load_resolution (p o : FileState) :
    (∀ rows, p = FileState.ok rows → rows ≠ [] → load_data (Files.mk p o) = rows) ∧
    ((p = FileState.missing ∨ p = FileState.ok []) →
      (∀ rows, o = FileState.ok rows → load_data (Files.mk p o) = rows) ∧
      (o = FileState.missing →
        load_data (Files.mk p o) = demo_data ∧ demo_data.length = 3) ∧
      (o = FileState.corrupt → load_data (Files.mk p o) = [])) ∧
    (p = FileState.corrupt → load_data (Files.mk p o) = []) := by
  refine ⟨?_, ?_, ?_⟩
  · rintro rows rfl hne
    simp [load_data, List.length_pos.mpr hne]
  · rintro hp
    refine ⟨?_, ?_, ?_⟩
    · rintro rows rfl
      rcases hp with rfl | rfl <;> simp [load_data, load_original]
    · rintro rfl
      rcases hp with rfl | rfl <;> exact ⟨by simp [load_data, load_original], rfl⟩
    · rintro rfl
      rcases hp with rfl | rfl <;> simp [load_data, load_original]
  · rintro rfl
    rfl

/-- Claim C3, witness exercising each branch of the resolution order at
concrete file states. -/
theorem load_resolution_witness :
    load_data (Files.mk (FileState.ok [vA]) FileState.corrupt) = [vA] ∧
    load_data (Files.mk FileState.missing FileState.missing) = demo_data ∧
    load_data (Files.mk (FileState.ok []) (FileState.ok [vB])) = [vB] ∧
    load_data (Files.mk FileState.corrupt (FileState.ok [vA])) = [] :=
  ⟨(load_resolution (FileState.ok [vA]) FileState.corrupt).1 [vA] rfl (by decide),
   (((load_resolution FileState.missing FileState.missing).2.1 (Or.inl rfl)).2.1 rfl).1,
   ((load_resolution (FileState.ok []) (FileState.ok [vB])).2.1 (Or.inr rfl)).1 [vB] rfl,
   (load_resolution FileState.corrupt (FileState.ok [vA])).2.2 rfl⟩

/-- Claim C4: reset_progress does delete the progress file, reload from
the original dataset and zero the session counter, but the source never
clears last_removed (nor disables the undo button), so a subsequent undo
is not a no-op: here the slot still holds vA after reset and undo appends
it to the freshly reloaded one-item set, giving a working set of two items
against original_count = 1. -/
theorem reset_keeps_undo_slot :
    (reset_progress (AppState.mk [] none (some vA) 3 5)
        (Files.mk (FileState.ok [vA]) (FileState.ok [vB])) 0).1.last_removed = some vA ∧
    (reset_progress (AppState.mk [] none (some vA) 3 5)
        (Files.mk (FileState.ok [vA]) (FileState.ok [vB])) 0).1.to_learn = [vB] ∧
    (reset_progress (AppState.mk [] none (some vA) 3 5)
        (Files.mk (FileState.ok [vA]) (FileState.ok [vB])) 0).1.original_count = 1 ∧
    (reset_progress (AppState.mk [] none (some vA) 3 5)
        (Files.mk (FileState.ok [vA]) (FileState.ok [vB])) 0).1.cards_learned_today = 0 ∧
    (reset_progress (AppState.mk [] none (some vA) 3 5)
        (Files.mk (FileState.ok [vA]) (FileState.ok [vB])) 0).2.progress
      = FileState.missing ∧
    (undo_last
        (reset_progress (AppState.mk [] none (some vA) 3 5)
          (Files.mk (FileState.ok [vA]) (FileState.ok [vB])) 0).1
        (reset_progress (AppState.mk [] none (some vA) 3 5)
          (Files.mk (FileState.ok [vA]) (FileState.ok [vB])) 0).2).1.to_learn
      = [vB, vA] := by
  decide

/-- Claim C5: rewriting the progress file from a working set and then
running the load chain again (a process restart) returns exactly the
persisted working set, whatever the original dataset file holds. The
empty working set round-trips through the error branch: its saved file
has no parseable header, the reload raises, and the handler returns the
empty list. -/
theorem persist_load_roundtrip (w : List VocabItem) (orig : FileState) :
    load_data (Files.mk (save_progress w) orig) = w := by
  cases w with
  | nil => rfl
  | cons a t => simp [save_progress, load_data]

/-- Claim C6: undo with an empty undo slot leaves the whole state and the
files untouched; the operation is total, so no error is raised. -/
theorem undo_empty_noop (s : AppState) (fs : Files) (h : s.last_removed = none) :
    undo_last s fs = (s, fs) := by
  obtain ⟨t, cc, lr, cl, oc⟩ := s
  obtain rfl : lr = none := h
  rfl

/-- Claim C6, witness at a concrete input. -/
theorem undo_empty_noop_witness :
    undo_last (AppState.mk [vA] (some vA) none 2 3)
        (Files.mk FileState.missing FileState.missing)
      = (AppState.mk [vA] (some vA) none 2 3,
         Files.mk FileState.missing FileState.missing) :=
  undo_empty_noop (AppState.mk [vA] (some vA) none 2 3)
    (Files.mk FileState.missing FileState.missing) rfl

/-- Claim C7: the drawn card is none exactly when the working set is
empty, any drawn card is a member of the working set, and drawing (the
skip action) changes neither the working set nor the undo slot nor the
session counters. -/
theorem pickNext_spec (s : AppState) (i : Nat) :
    (pick_next s i = none ↔ s.to_learn = []) ∧
    (∀ x, pick_next s i = some x → x ∈ s.to_learn) ∧
    (next_card s i).to_learn = s.to_learn ∧
    (next_card s i).last_removed = s.last_removed ∧
    (next_card s i).cards_learned_today = s.cards_learned_today ∧
    (next_card s i).original_count = s.original_count := by
  have hf := next_card_fields s i
  refine ⟨?_, ?_, hf.1, hf.2.1, hf.2.2.1, hf.2.2.2⟩
  · by_cases h : s.to_learn = [] <;> simp [pick_next, h]
  · intro x hx
    by_cases h : s.to_learn = []
    · simp [pick_next, h] at hx
    · simp only [pick_next, dif_neg h, Option.some.injEq] at hx
      exact hx ▸ List.get_mem s.to_learn _ _

/-- Claim C7, witness at a concrete input. -/
theorem pickNext_spec_witness :
    vA ∈ (AppState.mk [vA] none (some vB) 2 3).to_learn ∧
    (next_card (AppState.mk [vA] none (some vB) 2 3) 0).to_learn = [vA] ∧
    (next_card (AppState.mk [vA] none (some vB) 2 3) 0).last_removed = some vB ∧
    (next_card (AppState.mk [vA] none (some vB) 2 3) 0).cards_learned_today = 2 :=
  ⟨(pickNext_spec (AppState.mk [vA] none (some vB) 2 3) 0).2.1 vA (by decide),
   (pickNext_spec (AppState.mk [vA] none (some vB) 2 3) 0).2.2.1,
   (pickNext_spec (AppState.mk [vA] none (some vB) 2 3) 0).2.2.2.1,
   (pickNext_spec (AppState.mk [vA] none (some vB) 2 3) 0).2.2.2.2.1⟩

/-- Claim C8: the progress summary is the pure triple
(learnedTotal, totalCount, percentage) with
learnedTotal = totalCount - size of the working set and
percentage = learnedTotal / totalCount * 100 when totalCount is positive
and 0 otherwise; progress_summary is a function of the state alone, so it
modifies nothing. -/
theorem progressSummary_spec (s : AppState) :
    (progress_summary s).1 = learned_total s ∧
    (progress_summary s).2.1 = s.original_count ∧
    (0 < s.original_count →
      (progress_summary s).2.2
        = ((progress_summary s).1 : Rat) / ((progress_summary s).2.1 : Rat) * 100) ∧
    (s.original_count = 0 → (progress_summary s).2.2 = 0) := by
  refine ⟨rfl, rfl, ?_, ?_⟩
  · intro h
    simp [progress_summary, h]
  · intro h
    simp [progress_summary, h]

/-- Claim C8, witness: the scenario of the spec — one of two items
learned gives the summary (1, 2, 50). -/
theorem progressSummary_spec_witness :
    0 < (AppState.mk [vB] none none 1 2).original_count ∧
    (progress_summary (AppState.mk [vB] none none 1 2)).1 = 1 ∧
    (progress_summary (AppState.mk [vB] none none 1 2)).2.1 = 2 ∧
    (progress_summary (AppState.mk [vB] none none 1 2)).2.2 = 50 := by
  have h := (progressSummary_spec (AppState.mk [vB] none none 1 2)).2.2.1 (by decide)
  refine ⟨by decide, rfl, rfl, ?_⟩
  rw [h]
  norm_num [progress_summary]

/-- One step of a StoreOp never decreases learnedTotal. -/
theorem step_learned_le (st : AppState × Files) (op : StoreOp) :
    learned_total st.1 ≤ learned_total (stepOp st op).1 := by
  obtain ⟨s, fs⟩ := st
  cases op with
  | markKnown i =>
    obtain ⟨t, cc, lr, cl, oc⟩ := s
    cases cc with
    | none => simp [stepOp, is_known]
    | some c =>
      by_cases h : t = []
      · simp [stepOp, is_known, h]
      · have hstep :
            stepOp (AppState.mk t (some c) lr cl oc, fs) (StoreOp.markKnown i)
              = is_known (AppState.mk t (some c) lr cl oc) fs i := rfl
        rw [hstep, is_known_some t c lr cl oc fs i h]
        have hf := next_card_fields (AppState.mk (t.erase c) (some c) (some c) (cl + 1) oc) i
        simp only [learned_total, hf.1, hf.2.2.2]
        have hle : (t.erase c).length ≤ t.length :=
          List.Sublist.length_le (List.erase_sublist c t)
        omega
  | pickNext i =>
    have hf := next_card_fields s i
    simp [stepOp, learned_total, hf.1, hf.2.2.2]
  | persist =>
    simp [stepOp]

/-- Claim C9: along any sequence of store operations containing neither
undo nor reset, learnedTotal never decreases — neither across a single
step nor across a whole run. -/
theorem learnedTotal_monotone :
    (∀ st op, learned_total st.1 ≤ learned_total (stepOp st op).1) ∧
    (∀ st ops, learned_total st.1 ≤ learned_total (runOps st ops).1) := by
  refine ⟨step_learned_le, ?_⟩
  intro st ops
  induction ops generalizing st with
  | nil => exact le_refl _
  | cons op rest ih =>
    exact le_trans (step_learned_le st op) (ih (stepOp st op))

/-- Claim C10: when a current card is set but is not a member of the
non-empty working set, is_known still overwrites the undo slot with it,
increments the session counter, and rewrites the progress file, while
removing nothing from the working set. -/
theorem markKnown_stale_card (s : AppState) (fs : Files) (i : Nat) (c : VocabItem)
    (hc : s.current_card = some c) (hne : s.to_learn ≠ []) (hnm : c ∉ s.to_learn) :
    (is_known s fs i).1.to_learn = s.to_learn ∧
    (is_known s fs i).1.last_removed = some c ∧
    (is_known s fs i).1.cards_learned_today = s.cards_learned_today + 1 ∧
    (is_known s fs i).2.progress = save_progress s.to_learn := by
  have hu := is_known_unfold s fs i c hc hne
  have he : s.to_learn.erase c = s.to_learn := List.erase_of_not_mem hnm
  rw [he] at hu
  exact ⟨hu.1, hu.2.1, hu.2.2.1, by rw [hu.2.2.2.2]⟩

/-- Claim C10, witness at a concrete input: current card vB, working set
[vA]. -/
theorem markKnown_stale_card_witness :
    (is_known (AppState.mk [vA] (some vB) none 0 1)
        (Files.mk FileState.missing FileState.missing) 0).1.to_learn = [vA] ∧
    (is_known (AppState.mk [vA] (some vB) none 0 1)
        (Files.mk FileState.missing FileState.missing) 0).1.last_removed = some vB ∧
    (is_known (AppState.mk [vA] (some vB) none 0 1)
        (Files.mk FileState.missing FileState.missing) 0).1.cards_learned_today = 0 + 1 ∧
    (is_known (AppState.mk [vA] (some vB) none 0 1)
        (Files.mk FileState.missing FileState.missing) 0).2.progress
      = save_progress [vA] :=
  markKnown_stale_card (AppState.mk [vA] (some vB) none 0 1)
    (Files.mk FileState.missing FileState.missing) 0 vB rfl (by decide) (by decide)

end Flashcard
